import Mathlib

/-
Verification of the gencal repository (src/generate_calendar.py).

The Python module defines two classes:
  * HolidayAPI: a wrapper around the holidayapi.com service;
  * Calendar: parses a start/end date string pair, enumerates the days of
    [start, end), annotates each day with weekday / weekend / business-day /
    holiday data and assembles a table (a pandas DataFrame keyed by
    CALENDAR_KEYS) which can optionally be serialized as delimited text.

The embedding below translates the module faithfully:
  * dates are proleptic-Gregorian ordinals (Int), matching
    datetime.date.toordinal (0001-01-01 has ordinal 1);
  * the remote holiday service is an oracle parameter
    api : Int -> Except CalError (response), so a run of generate is a pure
    function of the builder state and the oracle;
  * Python exceptions become Except CalError;
  * numpy NaN cells become none; the dict-of-lists CALENDAR_DATA buffer,
    whose eleven lists receive exactly one append per enumerated day, is
    represented row-major as a List CalendarRow.
-/

set_option autoImplicit false

/-- The failure modes of the module: missing API key at HolidayAPI
construction, strptime failure in Calendar construction, a structured error
payload from the service, a transport-level failure, and the IndexError
raised by `holiday_data[0]` on an empty entry list. -/
inductive CalError where
  | configurationError
  | parseError
  | serviceError
  | transportError
  | indexError
  deriving DecidableEq, Repr

/-- Equality of Except results is decidable when it is for both sides;
needed so that concrete runs can be checked by decide. -/
instance instDecEqExcept {ε α : Type} [DecidableEq ε] [DecidableEq α] :
    DecidableEq (Except ε α) := fun x y =>
  match x, y with
  | Except.error a, Except.error b =>
    if h : a = b then Decidable.isTrue (by rw [h])
    else Decidable.isFalse (by intro hc; injection hc; exact h (by assumption))
  | Except.error _, Except.ok _ => Decidable.isFalse (fun hc => Except.noConfusion hc)
  | Except.ok _, Except.error _ => Decidable.isFalse (fun hc => Except.noConfusion hc)
  | Except.ok a, Except.ok b =>
    if h : a = b then Decidable.isTrue (by rw [h])
    else Decidable.isFalse (by intro hc; injection hc; exact h (by assumption))

/-- Python leap-year test: y % 4 == 0 and (y % 100 != 0 or y % 400 == 0). -/
def isLeap (y : Nat) : Bool :=
  y % 4 == 0 && (y % 100 != 0 || y % 400 == 0)

/-- Days in a month of a given year, as validated by the datetime
constructor. -/
def daysInMonthN (y m : Nat) : Nat :=
  if m = 2 then (if isLeap y then 29 else 28)
  else if m = 4 ∨ m = 6 ∨ m = 9 ∨ m = 11 then 30
  else 31

/-- Cumulative day count before each month in a non-leap year
(datetime _DAYS_BEFORE_MONTH). -/
def daysBeforeMonthFlat (m : Int) : Int :=
  if m = 1 then 0 else if m = 2 then 31 else if m = 3 then 59
  else if m = 4 then 90 else if m = 5 then 120 else if m = 6 then 151
  else if m = 7 then 181 else if m = 8 then 212 else if m = 9 then 243
  else if m = 10 then 273 else if m = 11 then 304 else 334

/-- Day count of each month in a non-leap year (datetime _DAYS_IN_MONTH). -/
def daysInMonthFlat (m : Int) : Int :=
  if m = 2 then 28
  else if m = 4 ∨ m = 6 ∨ m = 9 ∨ m = 11 then 30
  else 31

/-- Days before January 1 of year y (datetime _days_before_year); for y ≥ 1
the Nat subtraction is exact since (y-1)/4 ≥ (y-1)/100. -/
def daysBeforeYear (y : Nat) : Nat :=
  365 * (y - 1) + (y - 1) / 4 - (y - 1) / 100 + (y - 1) / 400

/-- datetime _days_before_month: days of year y strictly before month m. -/
def daysBeforeMonthN (y m : Nat) : Nat :=
  (daysBeforeMonthFlat (m : Int)).toNat + (if 2 < m ∧ isLeap y then 1 else 0)

/-- datetime _ymd2ord: proleptic-Gregorian ordinal of (y, m, d);
0001-01-01 is ordinal 1. -/
def ymd2ord (y m d : Nat) : Int :=
  ((daysBeforeYear y + daysBeforeMonthN y m + d : Nat) : Int)

/-- datetime _ord2ymd, translated statement by statement (Python divmod is
floor division, hence Int.fdiv / Int.fmod). -/
def ord2ymd (n0 : Int) : Int × Int × Int :=
  let n := n0 - 1
  let n400 := n.fdiv 146097
  let n := n.fmod 146097
  let year := n400 * 400 + 1
  let n100 := n.fdiv 36524
  let n := n.fmod 36524
  let n4 := n.fdiv 1461
  let n := n.fmod 1461
  let n1 := n.fdiv 365
  let n := n.fmod 365
  let year := year + n100 * 100 + n4 * 4 + n1
  if n1 = 4 ∨ n100 = 4 then (year - 1, 12, 31)
  else
    let leap := n1 == 3 && (n4 != 24 || n100 == 3)
    let month := (n + 50).fdiv 32
    let preceding := daysBeforeMonthFlat month + (if 2 < month ∧ leap then 1 else 0)
    if n < preceding then
      let month := month - 1
      let preceding := preceding - (daysInMonthFlat month + (if month = 2 ∧ leap then 1 else 0))
      (year, month, n - preceding + 1)
    else
      (year, month, n - preceding + 1)

/-- Zero-padded decimal rendering of a (nonnegative) number, width w. -/
def padNum (w : Nat) (n : Int) : String :=
  let s := toString n.toNat
  String.mk (List.replicate (w - s.length) '0') ++ s

/-- str(date.date()): the ISO YYYY-MM-DD rendering of an ordinal, as produced
by the format expression on line 200 of the source. -/
def dateStr (ord : Int) : String :=
  let ymd := ord2ymd ord
  padNum 4 ymd.1 ++ "-" ++ padNum 2 ymd.2.1 ++ "-" ++ padNum 2 ymd.2.2

/-- datetime _isoweek1monday: ordinal of the Monday starting ISO week 1 of
the given year (week 1 contains the first Thursday). -/
def isoweek1monday (year : Int) : Int :=
  let firstday := ymd2ord year.toNat 1 1
  let firstweekday := (firstday + 6).fmod 7
  let week1monday := firstday - firstweekday
  if 3 < firstweekday then week1monday + 7 else week1monday

/-- datetime date.isocalendar(): (ISO year, ISO week number, ISO weekday)
of an ordinal, translated statement by statement. -/
def isocalendar (ord : Int) : Int × Int × Int :=
  let year0 := (ord2ymd ord).1
  let week := (ord - isoweek1monday year0).fdiv 7
  let day := (ord - isoweek1monday year0).fmod 7
  if week < 0 then
    let year := year0 - 1
    let week2 := (ord - isoweek1monday year).fdiv 7
    let day2 := (ord - isoweek1monday year).fmod 7
    (year, week2 + 1, day2 + 1)
  else if 52 ≤ week ∧ isoweek1monday (year0 + 1) ≤ ord then
    (year0 + 1, 0 + 1, day + 1)
  else
    (year0, week + 1, day + 1)

/-- Split a character list on a separator character; n separators yield
n+1 (possibly empty) segments. -/
def splitChars (sep : Char) : List Char → List (List Char)
  | [] => [[]]
  | c :: cs =>
    let rest := splitChars sep cs
    if c = sep then [] :: rest
    else
      match rest with
      | [] => [[c]]
      | h :: t => (c :: h) :: t

/-- Decimal value of a digit string. -/
def digitsToNat (cs : List Char) : Nat :=
  cs.foldl (fun a c => a * 10 + (c.toNat - 48)) 0

/-- strptime with the default format. CPython matches the pattern
(?P<Y>dddd)-(?P<m>1[0-2]|0[1-9]|[1-9])-(?P<d>3[01]|[12]d|0[1-9]|[1-9])
against the whole string (year exactly four digits, month and day one or two
digits with value at least 1) and the datetime constructor then validates
1 ≤ year and day ≤ days in month. Returns the ordinal of the parsed date.
Only this default format (%Y-%m-%d) is modelled; the claims under study all
use it. -/
def parseDate (s : String) : Option Int :=
  match splitChars '-' s.data with
  | [ys, ms, ds] =>
    if ys.length = 4 ∧ ys.all Char.isDigit ∧
        (ms.length = 1 ∨ ms.length = 2) ∧ ms.all Char.isDigit ∧
        (ds.length = 1 ∨ ds.length = 2) ∧ ds.all Char.isDigit then
      let y := digitsToNat ys
      let m := digitsToNat ms
      let d := digitsToNat ds
      if 1 ≤ y ∧ 1 ≤ m ∧ m ≤ 12 ∧ 1 ≤ d ∧ d ≤ daysInMonthN y m then
        some (ymd2ord y m d)
      else none
    else none
  | _ => none

/-- One holiday entry of the service JSON response: the fields the module
reads are name, public and observed. -/
structure HolidayEntry where
  name : String
  public : Bool
  observed : String
  deriving DecidableEq, Repr

/-- The response body for one year: data with holidays mapping each date string to
its list of entries. Python dicts iterate in insertion order, so the mapping
is an ordered association list. -/
abbrev HolidayResponse := List (String × List HolidayEntry)

/-- The remote service as an oracle: year to response or failure
(serviceError for a structured error payload, transportError for a failing
HTTP status). -/
abbrev HolidayOracle := Int → Except CalError HolidayResponse

/-- The HolidayAPI object: after construction it holds the key. -/
structure HolidayAPI where
  api_key : String
  deriving DecidableEq, Repr

/-- HolidayAPI.__init__: raises when api_key is None, otherwise stores it. -/
def HolidayAPI.mkApi (api_key : Option String) : Except CalError HolidayAPI :=
  match api_key with
  | none => Except.error CalError.configurationError
  | some k => Except.ok { api_key := k }

/-- Python dict assignment d[k] = v on an insertion-ordered dict: overwrite
the value in place when the key is present, otherwise append. -/
def insertKV : List (String × String) → String → String → List (String × String)
  | [], k, v => [(k, v)]
  | p :: rest, k, v =>
    if p.1 = k then (k, v) :: rest else p :: insertKV rest k v

/-- Python dict.get. -/
def lookupKV : List (String × String) → String → Option String
  | [], _ => none
  | p :: rest, k => if p.1 = k then some p.2 else lookupKV rest k

/-- The body of the merge loop of Calendar._get_holidays_from_api for one
(holiday_date, holiday_data) item: when the entry list has more than one
element, index the first public entry under its observed date; then, in all
cases, take holiday_data[0] (IndexError on an empty list) and index it under
its observed date when it is public. -/
def processEntry (idx : List (String × String)) (p : String × List HolidayEntry) :
    Except CalError (List (String × String)) :=
  let holiday_data := p.2
  let idx1 :=
    if 1 < holiday_data.length then
      match holiday_data.filter (fun day => day.public) with
      | [] => idx
      | first_public_holiday :: _ =>
        insertKV idx first_public_holiday.observed first_public_holiday.name
    else idx
  match holiday_data with
  | [] => Except.error CalError.indexError
  | first :: _ =>
    Except.ok (if first.public then insertKV idx1 first.observed first.name else idx1)

/-- The inner loop over the dict of a single year. -/
def buildDict (idx : List (String × String)) :
    List (String × List HolidayEntry) → Except CalError (List (String × String))
  | [] => Except.ok idx
  | p :: rest =>
    match processEntry idx p with
    | Except.error e => Except.error e
    | Except.ok idx2 => buildDict idx2 rest

/-- The outer loop of Calendar._get_holidays_from_api over the per-year
response dicts, starting from a given accumulated index. -/
def buildIndexFrom (idx : List (String × String)) :
    List HolidayResponse → Except CalError (List (String × String))
  | [] => Except.ok idx
  | d :: ds =>
    match buildDict idx d with
    | Except.error e => Except.error e
    | Except.ok idx2 => buildIndexFrom idx2 ds

/-- self.holidays = {} followed by the nested merge loops. -/
def buildIndex (responses : List HolidayResponse) :
    Except CalError (List (String × String)) :=
  buildIndexFrom [] responses

/-- One row of the generated table; field order and names follow
CALENDAR_KEYS. A none in is_holiday / holiday_name is the numpy NaN the
Python code stores there. -/
structure CalendarRow where
  date : String
  year : Int
  month : Int
  day : Int
  weekday : Int
  weekday_name : String
  weeknumber : Int
  is_weekend : Bool
  is_business_day : Bool
  is_holiday : Option Bool
  holiday_name : Option String
  deriving DecidableEq, Repr

/-- The state of the Calendar object. holiday_api_key and country are stored by
__init__ only when include_holidays is true and are read only on that path,
so carrying them unconditionally is observationally equivalent. holidays is
the index assigned by _get_holidays_from_api (read only after that
assignment). The dict-of-lists buffer CALENDAR_DATA, whose eleven lists each
receive exactly one append per enumerated day, is held row-major. -/
structure Calendar where
  start_date : Int
  end_date : Int
  num_days : Int
  include_holidays : Bool
  holiday_api_key : Option String
  country : String
  CALENDAR_DATA : List CalendarRow
  holidays : List (String × String)
  deriving DecidableEq, Repr

/-- Calendar.__init__ with the default date format: strptime both strings
(ValueError, i.e. parseError, if either fails), store the day difference
end - start and an empty buffer from _gen_calendar_data_template. -/
def Calendar.mkCalendar (start_date_string end_date_string : String)
    (include_holidays : Bool) (holiday_api_key : Option String)
    (country : String) : Except CalError Calendar :=
  match parseDate start_date_string, parseDate end_date_string with
  | some sd, some ed =>
    Except.ok
      { start_date := sd
        end_date := ed
        num_days := ed - sd
        include_holidays := include_holidays
        holiday_api_key := holiday_api_key
        country := country
        CALENDAR_DATA := []
        holidays := [] }
  | _, _ => Except.error CalError.parseError

/-- Calendar._gen_dates: start_date + timedelta(day_num) for day_num in
range(num_days); range of a nonpositive count is empty. -/
def genDates (cal : Calendar) : List Int :=
  (List.range cal.num_days.toNat).map (fun (day_num : Nat) => cal.start_date + (day_num : Int))

/-- Calendar._is_weekend. -/
def isWeekend (weekday_index : Int) : Bool :=
  weekday_index == 6 || weekday_index == 7

/-- Calendar._is_holiday: look the YYYY-MM-DD string of the day up in the index;
(False, NaN) on a miss, (True, name) on a hit. -/
def isHoliday (holidays : List (String × String)) (ord : Int) : Bool × Option String :=
  match lookupKV holidays (dateStr ord) with
  | none => (false, none)
  | some holiday => (true, some holiday)

/-- Calendar._is_business_day. -/
def isBusinessDay (include_holidays : Bool) (holidays : List (String × String))
    (weekday_index : Int) (ord : Int) : Bool :=
  if include_holidays then
    !(isWeekend weekday_index) && !(isHoliday holidays ord).1
  else
    !(isWeekend weekday_index)

/-- WEEKDAY_MAP lookup; generate only ever applies it to the isocalendar
weekday, which lies in 1..7, so the final catch-all is unreachable there. -/
def weekdayMap (weekday : Int) : String :=
  if weekday = 1 then "Monday" else if weekday = 2 then "Tuesday"
  else if weekday = 3 then "Wednesday" else if weekday = 4 then "Thursday"
  else if weekday = 5 then "Friday" else if weekday = 6 then "Saturday"
  else if weekday = 7 then "Sunday" else ""

/-- The loop body of Calendar.generate for one enumerated day: the eleven
appends on lines 200-217 of the source, as one row. -/
def mkRow (include_holidays : Bool) (holidays : List (String × String))
    (ord : Int) : CalendarRow :=
  let iso := isocalendar ord
  let ymd := ord2ymd ord
  { date := dateStr ord
    year := iso.1
    month := ymd.2.1
    day := ymd.2.2
    weekday := iso.2.2
    weekday_name := weekdayMap iso.2.2
    weeknumber := iso.2.1
    is_weekend := isWeekend iso.2.2
    is_business_day := isBusinessDay include_holidays holidays iso.2.2 ord
    is_holiday := if include_holidays then some (isHoliday holidays ord).1 else none
    holiday_name := if include_holidays then (isHoliday holidays ord).2 else none }

/-- range(start, stop) over integers. -/
def intRange (start stop : Int) : List Int :=
  (List.range (stop - start).toNat).map (fun (i : Nat) => start + (i : Int))

/-- The fetch loop of Calendar._get_holidays_from_api: for each year,
construct HolidayAPI(self.holiday_api_key) (raising configurationError on a
missing key before any request) and call the service. -/
def fetchYears (holiday_api_key : Option String) (api : HolidayOracle) :
    List Int → Except CalError (List HolidayResponse)
  | [] => Except.ok []
  | y :: ys =>
    match HolidayAPI.mkApi holiday_api_key with
    | Except.error e => Except.error e
    | Except.ok _ =>
      match api y with
      | Except.error e => Except.error e
      | Except.ok d =>
        match fetchYears holiday_api_key api ys with
        | Except.error e => Except.error e
        | Except.ok ds => Except.ok (d :: ds)

/-- Calendar._get_holidays_from_api: fetch every year of
range(start.year, end.year + 1) and merge the responses into the index. -/
def getHolidaysFromApi (cal : Calendar) (api : HolidayOracle) :
    Except CalError (List (String × String)) :=
  let years := intRange (ord2ymd cal.start_date).1 ((ord2ymd cal.end_date).1 + 1)
  match fetchYears cal.holiday_api_key api years with
  | Except.error e => Except.error e
  | Except.ok responses => buildIndex responses

/-- Lines 192-193 of the source: if reset, replace the buffer by a fresh
template. -/
def Calendar.resetBuffer (cal : Calendar) (reset : Bool) : Calendar :=
  if reset then { cal with CALENDAR_DATA := [] } else cal

/-- Lines 195-196 of the source: when holidays are enabled, fetch and merge
them into self.holidays; any failure propagates. -/
def Calendar.resolveHolidays (cal : Calendar) (api : HolidayOracle) :
    Except CalError Calendar :=
  if cal.include_holidays then
    match getHolidaysFromApi cal api with
    | Except.error e => Except.error e
    | Except.ok h => Except.ok { cal with holidays := h }
  else Except.ok cal

/-- Lines 198-219 of the source: append one row per enumerated day to the
buffer and assemble the table from the whole buffer (the DataFrame is built
from CALENDAR_DATA, so rows held over from earlier calls are included). -/
def Calendar.appendRows (cal : Calendar) : Calendar × List CalendarRow :=
  let rows := (genDates cal).map (mkRow cal.include_holidays cal.holidays)
  let cal2 := { cal with CALENDAR_DATA := cal.CALENDAR_DATA ++ rows }
  (cal2, cal2.CALENDAR_DATA)

/-- Calendar.generate, returning the updated object state together with the
table. -/
def Calendar.generate (cal : Calendar) (api : HolidayOracle) (reset : Bool) :
    Except CalError (Calendar × List CalendarRow) :=
  match (cal.resetBuffer reset).resolveHolidays api with
  | Except.error e => Except.error e
  | Except.ok cal1 => Except.ok cal1.appendRows

/-- The fixed column order of the table. -/
def CALENDAR_KEYS : List String :=
  ["date", "year", "month", "day", "weekday", "weekday_name", "weeknumber",
   "is_weekend", "is_business_day", "is_holiday", "holiday_name"]

/-- How pandas renders a Python bool cell. -/
def cellBool (b : Bool) : String :=
  if b then "True" else "False"

/-- How pandas renders a bool-or-NaN cell (NaN prints as the empty field). -/
def cellOptBool (b : Option Bool) : String :=
  match b with
  | none => ""
  | some v => cellBool v

/-- How pandas renders a string-or-NaN cell. -/
def cellOptStr (s : Option String) : String :=
  match s with
  | none => ""
  | some v => v

/-- The serialized cells of one row, in CALENDAR_KEYS order (to_csv with
index=False emits no row-number column). -/
def rowCells (r : CalendarRow) : List String :=
  [r.date, toString r.year, toString r.month, toString r.day,
   toString r.weekday, r.weekday_name, toString r.weeknumber,
   cellBool r.is_weekend, cellBool r.is_business_day,
   cellOptBool r.is_holiday, cellOptStr r.holiday_name]

/-- csv QUOTE_MINIMAL with quotechar double-quote: a field is quoted (with
inner quotes doubled) exactly when it contains the separator, the quote
character, or a line-terminator character. -/
def quoteCell (sep : Char) (s : String) : String :=
  if s.data.any (fun c => c = sep ∨ c = '"' ∨ c = '\n' ∨ c = '\r') then
    "\"" ++ String.mk (s.data.flatMap (fun c => if c = '"' then ['"', '"'] else [c])) ++ "\""
  else s

/-- Join cells of one line with the separator. -/
def joinCells (sep : Char) : List String → String
  | [] => ""
  | [c] => c
  | c :: cs => c ++ String.mk [sep] ++ joinCells sep cs

/-- to_csv at the level of lines: the header line followed by one line per
row, each a separator-join of the (minimally quoted) cells. -/
def exportLines (t : List CalendarRow) (sep : Char) : List String :=
  joinCells sep (CALENDAR_KEYS.map (quoteCell sep)) ::
    t.map (fun r => joinCells sep ((rowCells r).map (quoteCell sep)))

/-- Naive re-parse of one exported line: split on the separator. -/
def splitCells (sep : Char) (s : String) : List String :=
  (splitChars sep s.data).map String.mk

/-- Naive re-parse of the exported text: split every line on the
separator. -/
def parseLines (sep : Char) (lines : List String) : List (List String) :=
  lines.map (splitCells sep)

/-- Calendar.__init__ followed by generate, for statements about strings for
which no table can be produced. -/
def initGenerate (start_date_string end_date_string : String)
    (include_holidays : Bool) (holiday_api_key : Option String)
    (country : String) (api : HolidayOracle) (reset : Bool) :
    Except CalError (Calendar × List CalendarRow) :=
  match Calendar.mkCalendar start_date_string end_date_string include_holidays
      holiday_api_key country with
  | Except.error e => Except.error e
  | Except.ok cal => cal.generate api reset

/-- The merge policy as the spec words it, for comparison with processEntry.
For a date with multiple entries, collect only the public entries and, if
any exist, index the first under its observed date; for a date with exactly
one entry, index it under its observed date exactly when it is public. -/
def specProcessEntry (idx : List (String × String)) (p : String × List HolidayEntry) :
    List (String × String) :=
  let entries := p.2
  if 1 < entries.length then
    match entries.filter (fun day => day.public) with
    | [] => idx
    | first :: _ => insertKV idx first.observed first.name
  else
    match entries with
    | [e] => if e.public then insertKV idx e.observed e.name else idx
    | _ => idx

/-- An oracle standing for a network that always fails; used to show that
paths which must not touch the network are insensitive to it. -/
def apiFail : HolidayOracle := fun _ => Except.error CalError.transportError

/-- The builder produced by Calendar("2021-01-01", "2021-01-08") with the
default arguments. -/
def demoCal : Calendar :=
  { start_date := 737791, end_date := 737798, num_days := 7,
    include_holidays := false, holiday_api_key := none, country := "US",
    CALENDAR_DATA := [], holidays := [] }

/-- The rows generate() appends for demoCal. -/
def demoRows : List CalendarRow := (genDates demoCal).map (mkRow false [])

/-- The (state, table) pair returned by demoCal.generate. -/
def demoPair : Calendar × List CalendarRow :=
  ({ demoCal with CALENDAR_DATA := demoRows }, demoRows)

/-- The builder for a one-day range with holidays enabled and no key. -/
def cal5 : Calendar :=
  { start_date := 737791, end_date := 737792, num_days := 1,
    include_holidays := true, holiday_api_key := none, country := "US",
    CALENDAR_DATA := [], holidays := [] }

/-- The builder produced by Calendar("2021-01-02", "2021-01-01"): the end
date precedes the start date, so num_days is negative. -/
def cal8 : Calendar :=
  { start_date := 737792, end_date := 737791, num_days := -1,
    include_holidays := false, holiday_api_key := none, country := "US",
    CALENDAR_DATA := [], holidays := [] }

/-- The two-entry scenario of the spec for 2021-01-01: one public holiday and one
non-public observance, the public one listed first. -/
def scenarioEntries : List HolidayEntry :=
  [{ name := "New Year\x27s Day", public := true, observed := "2021-01-01" },
   { name := "Day After New Years Eve", public := false, observed := "2021-01-01" }]

/-- A service oracle returning the scenario response for every year. -/
def scenarioApi : HolidayOracle := fun _ => Except.ok [("2021-01-01", scenarioEntries)]

/-- The table a default one-day generate() produces, for the export
round-trip statements. -/
def cexRows : List CalendarRow :=
  match initGenerate "2021-01-01" "2021-01-02" false none "US" apiFail false with
  | Except.ok p => p.2
  | Except.error _ => []

/-! ### Helper lemmas -/

lemma insertKV_idem (m : List (String × String)) (k v : String) :
    insertKV (insertKV m k v) k v = insertKV m k v := by
  induction m with
  | nil => simp [insertKV]
  | cons p rest ih =>
    by_cases h : p.1 = k
    · simp [insertKV, h]
    · simp [insertKV, h, ih]

lemma processEntry_eq_spec (idx : List (String × String)) (date : String)
    (entries : List HolidayEntry) (hne : entries ≠ []) :
    processEntry idx (date, entries) = Except.ok (specProcessEntry idx (date, entries)) := by
  match entries with
  | [] => exact absurd rfl hne
  | [e] =>
    simp [processEntry, specProcessEntry]
  | e0 :: e1 :: rest =>
    have hlen : 1 < (e0 :: e1 :: rest).length := by
      simp [List.length_cons]
    by_cases hpub : e0.public
    · simp [processEntry, specProcessEntry, hlen, List.filter_cons, hpub, insertKV_idem]
    · simp [processEntry, specProcessEntry, hlen, List.filter_cons, hpub]

lemma getHolidays_reset (cal : Calendar) (r : Bool) (api : HolidayOracle) :
    getHolidaysFromApi (cal.resetBuffer r) api = getHolidaysFromApi cal api := by
  cases r <;> rfl

lemma genDates_reset (cal : Calendar) (r : Bool) :
    genDates (cal.resetBuffer r) = genDates cal := by
  cases r <;> rfl

lemma resetBuffer_include (cal : Calendar) (r : Bool) :
    (cal.resetBuffer r).include_holidays = cal.include_holidays := by
  cases r <;> rfl

lemma resetBuffer_holidays (cal : Calendar) (r : Bool) :
    (cal.resetBuffer r).holidays = cal.holidays := by
  cases r <;> rfl

lemma resetBuffer_data (cal : Calendar) (r : Bool) :
    (cal.resetBuffer r).CALENDAR_DATA = if r then [] else cal.CALENDAR_DATA := by
  cases r <;> rfl

lemma resetBuffer_start (cal : Calendar) (r : Bool) :
    (cal.resetBuffer r).start_date = cal.start_date := by
  cases r <;> rfl

lemma resetBuffer_num (cal : Calendar) (r : Bool) :
    (cal.resetBuffer r).num_days = cal.num_days := by
  cases r <;> rfl

lemma generate_holidays_off (cal : Calendar) (api : HolidayOracle) (r : Bool)
    (h : cal.include_holidays = false) :
    cal.generate api r = Except.ok
      ((cal.resetBuffer r).appendRows.1,
       (if r then [] else cal.CALENDAR_DATA) ++ (genDates cal).map (mkRow false cal.holidays)) := by
  have h5 : ¬ ((cal.resetBuffer r).include_holidays = true) := by
    rw [resetBuffer_include, h]
    simp
  have hres : (cal.resetBuffer r).resolveHolidays api = Except.ok (cal.resetBuffer r) := by
    rw [Calendar.resolveHolidays, if_neg h5]
  rw [Calendar.generate, hres]
  simp only [Calendar.appendRows, resetBuffer_include, resetBuffer_holidays,
    resetBuffer_data, genDates_reset, h]

lemma generate_holidays_on_ok (cal : Calendar) (api : HolidayOracle) (r : Bool)
    (hs : List (String × String)) (hinc : cal.include_holidays = true)
    (hfetch : getHolidaysFromApi cal api = Except.ok hs) :
    cal.generate api r = Except.ok
      ({ cal.resetBuffer r with holidays := hs }.appendRows.1,
       (if r then [] else cal.CALENDAR_DATA) ++ (genDates cal).map (mkRow true hs)) := by
  have h5 : (cal.resetBuffer r).include_holidays = true := by
    rw [resetBuffer_include]
    exact hinc
  have hres : (cal.resetBuffer r).resolveHolidays api =
      Except.ok { cal.resetBuffer r with holidays := hs } := by
    rw [Calendar.resolveHolidays, if_pos h5, getHolidays_reset, hfetch]
  rw [Calendar.generate, hres]
  have h1 : ({ cal.resetBuffer r with holidays := hs } : Calendar).include_holidays =
      cal.include_holidays := by cases r <;> rfl
  have h2 : ({ cal.resetBuffer r with holidays := hs } : Calendar).holidays = hs := by
    cases r <;> rfl
  have h3 : genDates { cal.resetBuffer r with holidays := hs } = genDates cal := by
    cases r <;> rfl
  have h4 : ({ cal.resetBuffer r with holidays := hs } : Calendar).CALENDAR_DATA =
      if r then [] else cal.CALENDAR_DATA := by cases r <;> rfl
  simp only [Calendar.appendRows, h1, h2, h3, h4, resetBuffer_include, resetBuffer_data, hinc]
  simp [genDates, resetBuffer_start, resetBuffer_num]

lemma generate_holidays_on_error (cal : Calendar) (api : HolidayOracle) (r : Bool)
    (e : CalError) (hinc : cal.include_holidays = true)
    (hfetch : getHolidaysFromApi cal api = Except.error e) :
    cal.generate api r = Except.error e := by
  have h5 : (cal.resetBuffer r).include_holidays = true := by
    rw [resetBuffer_include]
    exact hinc
  have hres : (cal.resetBuffer r).resolveHolidays api = Except.error e := by
    rw [Calendar.resolveHolidays, if_pos h5, getHolidays_reset, hfetch]
  rw [Calendar.generate, hres]

lemma mkCalendar_ok (s e : String) (inc : Bool) (key : Option String) (ctry : String)
    (ds de : Int) (hs : parseDate s = some ds) (he : parseDate e = some de) :
    Calendar.mkCalendar s e inc key ctry = Except.ok
      { start_date := ds, end_date := de, num_days := de - ds,
        include_holidays := inc, holiday_api_key := key, country := ctry,
        CALENDAR_DATA := [], holidays := [] } := by
  simp [Calendar.mkCalendar, hs, he]

lemma mkCalendar_shape (s e : String) (inc : Bool) (key : Option String) (ctry : String)
    (cal : Calendar) (h : Calendar.mkCalendar s e inc key ctry = Except.ok cal) :
    cal.CALENDAR_DATA = [] ∧ cal.include_holidays = inc ∧ cal.holiday_api_key = key ∧
      cal.holidays = [] ∧ cal.num_days = cal.end_date - cal.start_date := by
  unfold Calendar.mkCalendar at h
  cases hs : parseDate s with
  | none => rw [hs] at h; exact absurd h (by simp)
  | some ds =>
    cases he : parseDate e with
    | none => rw [hs, he] at h; exact absurd h (by simp)
    | some de =>
      rw [hs, he] at h
      have : _ = cal := (Except.ok.injEq _ _).mp h
      rw [← this]
      simp

lemma mkRow_weekend_not_business (inc : Bool) (hols : List (String × String)) (d : Int)
    (h : (mkRow inc hols d).is_weekend = true) :
    (mkRow inc hols d).is_business_day = false := by
  simp only [mkRow] at h ⊢
  cases inc <;> simp [isBusinessDay, h]

lemma mkRow_off_fields (hols : List (String × String)) (d : Int) :
    (mkRow false hols d).is_holiday = none ∧ (mkRow false hols d).holiday_name = none ∧
      (mkRow false hols d).is_business_day = !(mkRow false hols d).is_weekend := by
  simp [mkRow, isBusinessDay]

lemma generate_ok_rows (cal : Calendar) (api : HolidayOracle) (r : Bool)
    (p : Calendar × List CalendarRow) (hgen : cal.generate api r = Except.ok p) :
    ∃ hols, (cal.include_holidays = true → getHolidaysFromApi cal api = Except.ok hols) ∧
      p.2 = (if r then [] else cal.CALENDAR_DATA) ++
        (genDates cal).map (mkRow cal.include_holidays hols) := by
  cases hincb : cal.include_holidays with
  | false =>
    refine ⟨cal.holidays, fun h => absurd h (by simp [hincb]), ?_⟩
    rw [generate_holidays_off cal api r hincb] at hgen
    have hp := (Except.ok.injEq _ _).mp hgen
    rw [← hp]
  | true =>
    cases hfetch : getHolidaysFromApi cal api with
    | error err =>
      rw [generate_holidays_on_error cal api r err hincb hfetch] at hgen
      exact absurd hgen (by simp)
    | ok hs =>
      refine ⟨hs, fun _ => rfl, ?_⟩
      rw [generate_holidays_on_ok cal api r hs hincb hfetch] at hgen
      have hp := (Except.ok.injEq _ _).mp hgen
      rw [← hp]

/-! ### Claim theorems -/

/-- C2: the holiday-index merge implements exactly the specified policy for
every non-empty entry list: with multiple entries, only public entries are
collected and, if any exist, the first in returned order is indexed under
its observed-date field; with exactly one entry, it is indexed under its
observed date iff it is public. In the two-entry scenario with a public
New Year entry observed 2021-01-01 and a non-public companion, the index
maps 2021-01-01 to the name of the public entry and the row for that day has
is_holiday true, that holiday name, and is_business_day false. -/
theorem holiday_merge_policy :
    (∀ (idx : List (String × String)) (date : String) (entries : List HolidayEntry),
      entries ≠ [] →
        processEntry idx (date, entries) = Except.ok (specProcessEntry idx (date, entries))) ∧
    buildIndex [[("2021-01-01", scenarioEntries)]] =
      Except.ok [("2021-01-01", "New Year\x27s Day")] ∧
    (initGenerate "2021-01-01" "2021-01-02" true (some "key") "US" scenarioApi false).map
        (fun p => p.2.map (fun row => (row.is_holiday, row.holiday_name, row.is_business_day))) =
      Except.ok [(some true, some "New Year\x27s Day", false)] := by
  refine ⟨processEntry_eq_spec, by decide, by decide⟩

/-- Witness for C2 at a concrete one-entry input. -/
theorem holiday_merge_policy_witness :
    ([{ name := "A", public := true, observed := "2021-05-01" }] : List HolidayEntry) ≠ [] ∧
    processEntry [] ("2021-05-01", [{ name := "A", public := true, observed := "2021-05-01" }]) =
      Except.ok (specProcessEntry []
        ("2021-05-01", [{ name := "A", public := true, observed := "2021-05-01" }])) :=
  ⟨by decide, holiday_merge_policy.1 [] "2021-05-01"
    [{ name := "A", public := true, observed := "2021-05-01" }] (by decide)⟩

/-- C3: is_business_day is true iff the day is not a weekend and (holidays
are disabled or the day is not in the index); in particular every generated
row with is_weekend true has is_business_day false, whatever the holiday
flag. -/
theorem business_day_rule :
    (∀ (inc : Bool) (hols : List (String × String)) (wd d : Int),
      isBusinessDay inc hols wd d = (!(isWeekend wd) && (!inc || !(isHoliday hols d).1))) ∧
    (∀ (s e : String) (inc : Bool) (key : Option String) (ctry : String)
      (api : HolidayOracle) (r : Bool) (cal : Calendar) (p : Calendar × List CalendarRow),
      Calendar.mkCalendar s e inc key ctry = Except.ok cal →
      cal.generate api r = Except.ok p →
      ∀ row ∈ p.2, row.is_weekend = true → row.is_business_day = false) := by
  constructor
  · intro inc hols wd d
    cases inc <;> simp [isBusinessDay]
  · intro s e inc key ctry api r cal p hinit hgen row hrow hw
    obtain ⟨hbuf, _, _, _, _⟩ := mkCalendar_shape s e inc key ctry cal hinit
    obtain ⟨hols, _, hp2⟩ := generate_ok_rows cal api r p hgen
    rw [hp2, hbuf, ite_self] at hrow
    rw [List.nil_append] at hrow
    obtain ⟨d, _, hrw⟩ := List.mem_map.mp hrow
    rw [← hrw] at hw ⊢
    exact mkRow_weekend_not_business _ _ _ hw

/-- Witness for C3: the 2021-01-02 row of the demo table is a Saturday and
not a business day. -/
theorem business_day_rule_witness :
    (demoPair.2.get ⟨1, by decide⟩).is_business_day = false :=
  business_day_rule.2 "2021-01-01" "2021-01-08" false none "US" apiFail false
    demoCal demoPair (by decide) (by decide) _ (by decide) (by decide)

/-- C4: with holiday inclusion disabled the run is insensitive to the
service oracle (no network call), and every generated row has NaN (none)
is_holiday and holiday_name and is_business_day equal to the negation of
is_weekend. -/
theorem holidays_disabled_generate :
    ∀ (s e : String) (key : Option String) (ctry : String)
      (api api2 : HolidayOracle) (r : Bool) (cal : Calendar),
      Calendar.mkCalendar s e false key ctry = Except.ok cal →
      (cal.generate api r = cal.generate api2 r ∧
        ∀ p, cal.generate api r = Except.ok p →
          ∀ row ∈ p.2, row.is_holiday = none ∧ row.holiday_name = none ∧
            row.is_business_day = !row.is_weekend) := by
  intro s e key ctry api api2 r cal hinit
  obtain ⟨hbuf, hinc, _, _, _⟩ := mkCalendar_shape s e false key ctry cal hinit
  constructor
  · rw [generate_holidays_off cal api r hinc, generate_holidays_off cal api2 r hinc]
  · intro p hgen row hrow
    obtain ⟨hols, _, hp2⟩ := generate_ok_rows cal api r p hgen
    rw [hp2, hbuf, ite_self, List.nil_append, hinc] at hrow
    obtain ⟨d, _, hrw⟩ := List.mem_map.mp hrow
    rw [← hrw]
    exact mkRow_off_fields hols d

/-- Witness for C4 at the demo builder. -/
theorem holidays_disabled_generate_witness :
    demoCal.generate apiFail false = demoCal.generate scenarioApi false ∧
    ∀ p, demoCal.generate apiFail false = Except.ok p →
      ∀ row ∈ p.2, row.is_holiday = none ∧ row.holiday_name = none ∧
        row.is_business_day = !row.is_weekend :=
  holidays_disabled_generate "2021-01-01" "2021-01-08" none "US" apiFail scenarioApi
    false demoCal (by decide)

/-- C1: for parseable start/end strings with start ≤ end, a successful
generate on a freshly constructed builder yields exactly (end − start) rows;
the i-th row is the day start + i rendered as its date string, so the rows
cover [start, end) one day each, with no gap and no duplicate, and the
enumerated day ordinals are strictly ascending. -/
theorem generate_day_enumeration
    (s e : String) (ds de : Int) (inc : Bool) (key : Option String) (ctry : String)
    (api : HolidayOracle) (cal : Calendar) (p : Calendar × List CalendarRow)
    (hs : parseDate s = some ds) (he : parseDate e = some de) (hle : ds ≤ de)
    (hinit : Calendar.mkCalendar s e inc key ctry = Except.ok cal)
    (hgen : cal.generate api false = Except.ok p) :
    ((p.2.length : Int) = de - ds) ∧
    (∀ i (h : i < p.2.length), (p.2.get ⟨i, h⟩).date = dateStr (ds + (i : Int))) ∧
    (∀ i (h : i < (genDates cal).length), (genDates cal).get ⟨i, h⟩ = ds + (i : Int)) ∧
    List.Pairwise (fun a b => a < b) (genDates cal) := by
  rw [mkCalendar_ok s e inc key ctry ds de hs he] at hinit
  have hcal := (Except.ok.injEq _ _).mp hinit
  obtain ⟨hols, _, hp2⟩ := generate_ok_rows cal api false p hgen
  have hstart : cal.start_date = ds := by rw [← hcal]
  have hnum : cal.num_days = de - ds := by rw [← hcal]
  have hdata : cal.CALENDAR_DATA = [] := by rw [← hcal]
  have hgd : genDates cal =
      (List.range (de - ds).toNat).map (fun (i : Nat) => ds + (i : Int)) := by
    rw [genDates, hstart, hnum]
  have hlen : (genDates cal).length = (de - ds).toNat := by
    rw [hgd, List.length_map, List.length_range]
  have hp2' : p.2 = (genDates cal).map (mkRow cal.include_holidays hols) := by
    rw [hp2, hdata]
    simp
  refine ⟨?_, ?_, ?_, ?_⟩
  · rw [hp2', List.length_map, hlen, Int.toNat_of_nonneg (by omega)]
  · intro i h
    simp only [List.get_eq_getElem, hp2', hgd, List.getElem_map, List.getElem_range]
    simp [mkRow]
  · intro i h
    simp only [List.get_eq_getElem, hgd, List.getElem_map, List.getElem_range]
  · rw [hgd, List.pairwise_map]
    exact (List.pairwise_lt_range _).imp (fun hab => by omega)

/-- Witness for C1 at the 7-day demo range. -/
theorem generate_day_enumeration_witness :
    ((demoPair.2.length : Int) = 737798 - 737791) ∧
    (∀ i (h : i < demoPair.2.length),
      (demoPair.2.get ⟨i, h⟩).date = dateStr (737791 + (i : Int))) ∧
    (∀ i (h : i < (genDates demoCal).length),
      (genDates demoCal).get ⟨i, h⟩ = 737791 + (i : Int)) ∧
    List.Pairwise (fun a b => a < b) (genDates demoCal) :=
  generate_day_enumeration "2021-01-01" "2021-01-08" 737791 737798 false none "US"
    apiFail demoCal demoPair (by decide) (by decide) (by decide) (by decide) (by decide)

/-- C5: HolidayAPI construction fails with the configuration error exactly
when the credential is absent, and a builder with holidays enabled and no
credential fails generate() with that error for every service oracle (hence
before any network request). -/
theorem missing_api_key_fails
    (key : Option String) (s e ctry : String) (api : HolidayOracle) (r : Bool)
    (cal : Calendar)
    (hinit : Calendar.mkCalendar s e true none ctry = Except.ok cal)
    (hyear : (ord2ymd cal.start_date).1 ≤ (ord2ymd cal.end_date).1) :
    (HolidayAPI.mkApi key = Except.error CalError.configurationError ↔ key = none) ∧
    cal.generate api r = Except.error CalError.configurationError := by
  constructor
  · constructor
    · intro h
      cases key with
      | none => rfl
      | some k => simp [HolidayAPI.mkApi] at h
    · intro h
      rw [h]
      rfl
  · obtain ⟨_, hinc, hkey, _, _⟩ := mkCalendar_shape s e true none ctry cal hinit
    have hfetch : getHolidaysFromApi cal api = Except.error CalError.configurationError := by
      rw [getHolidaysFromApi]
      cases hY : intRange (ord2ymd cal.start_date).1 ((ord2ymd cal.end_date).1 + 1) with
      | nil =>
        exfalso
        have hlen := congrArg List.length hY
        rw [intRange] at hlen
        simp at hlen
        omega
      | cons y ys =>
        rw [hkey]
        rfl
    exact generate_holidays_on_error cal api r _ hinc hfetch

/-- Witness for C5 at a concrete one-day builder with a missing key. -/
theorem missing_api_key_fails_witness :
    cal5.generate scenarioApi false = Except.error CalError.configurationError :=
  (missing_api_key_fails (some "k") "2021-01-01" "2021-01-02" "US" scenarioApi false
    cal5 (by decide) (by decide)).2

/-- C6: construction succeeds iff both date strings parse under the
configured (default) format; when either fails to parse, construction and
hence any attempt to generate fail with the parse error, so no table is
produced. -/
theorem construction_parse_errors (s e : String) (inc : Bool) (key : Option String)
    (ctry : String) :
    ((∃ cal, Calendar.mkCalendar s e inc key ctry = Except.ok cal) ↔
      (parseDate s).isSome ∧ (parseDate e).isSome) ∧
    ((parseDate s = none ∨ parseDate e = none) →
      Calendar.mkCalendar s e inc key ctry = Except.error CalError.parseError ∧
      ∀ (api : HolidayOracle) (r : Bool),
        initGenerate s e inc key ctry api r = Except.error CalError.parseError) := by
  constructor
  · constructor
    · rintro ⟨cal, hcal⟩
      unfold Calendar.mkCalendar at hcal
      cases hps : parseDate s with
      | none =>
        rw [hps] at hcal
        exact absurd hcal (by simp)
      | some a =>
        cases hpe : parseDate e with
        | none =>
          rw [hps, hpe] at hcal
          exact absurd hcal (by simp)
        | some b => simp [hps, hpe]
    · rintro ⟨h1, h2⟩
      obtain ⟨a, ha⟩ := Option.isSome_iff_exists.mp h1
      obtain ⟨b, hb⟩ := Option.isSome_iff_exists.mp h2
      exact ⟨_, mkCalendar_ok s e inc key ctry a b ha hb⟩
  · intro h
    have hinit : Calendar.mkCalendar s e inc key ctry = Except.error CalError.parseError := by
      unfold Calendar.mkCalendar
      rcases h with h | h
      · rw [h]
      · cases hps : parseDate s with
        | none => rw [h]
        | some a => rw [h]
    refine ⟨hinit, ?_⟩
    intro api r
    rw [initGenerate, hinit]

/-- Witness for C6 at a malformed start string. -/
theorem construction_parse_errors_witness :
    (parseDate "garbage" = none ∨ parseDate "2021-01-08" = none) ∧
    Calendar.mkCalendar "garbage" "2021-01-08" false none "US" =
      Except.error CalError.parseError ∧
    initGenerate "garbage" "2021-01-08" false none "US" apiFail false =
      Except.error CalError.parseError := by
  have h := (construction_parse_errors "garbage" "2021-01-08" false none "US").2
    (Or.inl (by decide))
  exact ⟨Or.inl (by decide), h.1, h.2 apiFail false⟩

/-- C8: when the end date precedes the start date, construction succeeds
with a negative (unvalidated) day count, and generate() on the
default-configured builder raises no error and returns an empty table (the
column set is the fixed CALENDAR_KEYS structure of every table). -/
theorem reversed_range_empty_table
    (s e : String) (ds de : Int) (key : Option String) (ctry : String)
    (api : HolidayOracle) (r : Bool) (cal : Calendar)
    (hs : parseDate s = some ds) (he : parseDate e = some de) (hlt : de < ds)
    (hinit : Calendar.mkCalendar s e false key ctry = Except.ok cal) :
    cal.num_days < 0 ∧ (cal.generate api r).map (fun q => q.2) = Except.ok [] := by
  rw [mkCalendar_ok s e false key ctry ds de hs he] at hinit
  have hcal := (Except.ok.injEq _ _).mp hinit
  have hnum : cal.num_days = de - ds := by rw [← hcal]
  have hdata : cal.CALENDAR_DATA = [] := by rw [← hcal]
  have hinc : cal.include_holidays = false := by rw [← hcal]
  have hgd : genDates cal = [] := by
    rw [genDates, hnum]
    have h0 : (de - ds).toNat = 0 := by omega
    rw [h0]
    rfl
  constructor
  · rw [hnum]
    omega
  · rw [generate_holidays_off cal api r hinc]
    simp [Except.map, hdata, hgd]

/-- Witness for C8 at the reversed one-day range. -/
theorem reversed_range_empty_table_witness :
    cal8.num_days < 0 ∧ (cal8.generate apiFail false).map (fun q => q.2) = Except.ok [] :=
  reversed_range_empty_table "2021-01-02" "2021-01-01" 737792 737791 none "US"
    apiFail false cal8 (by decide) (by decide) (by decide) (by decide)

lemma processEntry_empty (idx : List (String × String)) (d : String) :
    processEntry idx (d, ([] : List HolidayEntry)) = Except.error CalError.indexError := rfl

lemma processEntry_ne_error (idx : List (String × String)) (d : String)
    (e0 : HolidayEntry) (rest : List HolidayEntry) :
    ∃ idx2, processEntry idx (d, e0 :: rest) = Except.ok idx2 := ⟨_, rfl⟩

lemma buildDict_ok_iff (d : List (String × List HolidayEntry)) :
    ∀ idx, (∃ idx2, buildDict idx d = Except.ok idx2) ↔
      ∀ p ∈ d, p.2 ≠ ([] : List HolidayEntry) := by
  induction d with
  | nil =>
    intro idx
    constructor
    · intro _ p hp
      exact absurd hp (List.not_mem_nil p)
    · intro _
      exact ⟨idx, rfl⟩
  | cons p rest ih =>
    obtain ⟨pd, pe⟩ := p
    intro idx
    cases pe with
    | nil =>
      constructor
      · rintro ⟨idx2, hok⟩
        simp only [buildDict, processEntry_empty] at hok
        exact absurd hok (by simp)
      · intro hall
        exact absurd rfl (hall (pd, []) (List.mem_cons_self _ _))
    | cons e0 r0 =>
      obtain ⟨idxn, hok⟩ := processEntry_ne_error idx pd e0 r0
      constructor
      · rintro ⟨idx2, h2⟩
        simp only [buildDict, hok] at h2
        intro q hq
        rcases List.mem_cons.mp hq with heq | hq2
        · rw [heq]
          simp
        · exact ((ih idxn).mp ⟨idx2, h2⟩) q hq2
      · intro hall
        obtain ⟨idx2, h2⟩ := (ih idxn).mpr (fun q hq => hall q (List.mem_cons_of_mem _ hq))
        refine ⟨idx2, ?_⟩
        simp only [buildDict, hok]
        exact h2

lemma buildDict_error_eq (d : List (String × List HolidayEntry)) :
    ∀ idx, (∃ p ∈ d, p.2 = ([] : List HolidayEntry)) →
      buildDict idx d = Except.error CalError.indexError := by
  induction d with
  | nil =>
    rintro idx ⟨p, hp, _⟩
    exact absurd hp (List.not_mem_nil p)
  | cons p rest ih =>
    obtain ⟨pd, pe⟩ := p
    intro idx h
    cases pe with
    | nil => simp only [buildDict, processEntry_empty]
    | cons e0 r0 =>
      obtain ⟨idxn, hok⟩ := processEntry_ne_error idx pd e0 r0
      simp only [buildDict, hok]
      obtain ⟨q, hq, hq2⟩ := h
      rcases List.mem_cons.mp hq with heq | hq3
      · rw [heq] at hq2
        simp at hq2
      · exact ih idxn ⟨q, hq3, hq2⟩

lemma buildDict_error_value (d : List (String × List HolidayEntry))
    (idx : List (String × String)) (e : CalError)
    (h : buildDict idx d = Except.error e) : e = CalError.indexError := by
  have hne : ¬ ∀ p ∈ d, p.2 ≠ ([] : List HolidayEntry) := by
    intro hall
    obtain ⟨i2, hi⟩ := (buildDict_ok_iff d idx).mpr hall
    rw [h] at hi
    cases hi
  push_neg at hne
  obtain ⟨p, hp, hp2⟩ := hne
  have h2 := buildDict_error_eq d idx ⟨p, hp, hp2⟩
  rw [h] at h2
  exact ((Except.error.injEq _ _).mp h2)

lemma buildIndexFrom_ok_iff (ds : List HolidayResponse) :
    ∀ idx, (∃ idx2, buildIndexFrom idx ds = Except.ok idx2) ↔
      ∀ d ∈ ds, ∀ p ∈ d, p.2 ≠ ([] : List HolidayEntry) := by
  induction ds with
  | nil =>
    intro idx
    constructor
    · intro _ d hd
      exact absurd hd (List.not_mem_nil d)
    · intro _
      exact ⟨idx, rfl⟩
  | cons d rest ih =>
    intro idx
    cases hd : buildDict idx d with
    | error e =>
      have hne : ¬ ∀ p ∈ d, p.2 ≠ ([] : List HolidayEntry) := by
        intro hall
        obtain ⟨i2, hi⟩ := (buildDict_ok_iff d idx).mpr hall
        rw [hd] at hi
        cases hi
      constructor
      · rintro ⟨idx2, h2⟩
        simp only [buildIndexFrom, hd] at h2
        exact absurd h2 (by simp)
      · intro hall
        exact absurd (fun p hp => hall d (List.mem_cons_self _ _) p hp) hne
    | ok idxn =>
      have hdall : ∀ p ∈ d, p.2 ≠ ([] : List HolidayEntry) :=
        (buildDict_ok_iff d idx).mp ⟨idxn, hd⟩
      constructor
      · rintro ⟨idx2, h2⟩
        simp only [buildIndexFrom, hd] at h2
        intro q hq
        rcases List.mem_cons.mp hq with heq | hq2
        · rw [heq]
          exact hdall
        · exact ((ih idxn).mp ⟨idx2, h2⟩) q hq2
      · intro hall
        obtain ⟨idx2, h2⟩ := (ih idxn).mpr (fun q hq => hall q (List.mem_cons_of_mem _ hq))
        refine ⟨idx2, ?_⟩
        simp only [buildIndexFrom, hd]
        exact h2

lemma buildIndexFrom_error_eq (ds : List HolidayResponse) :
    ∀ idx, (∃ d ∈ ds, ∃ p ∈ d, p.2 = ([] : List HolidayEntry)) →
      buildIndexFrom idx ds = Except.error CalError.indexError := by
  induction ds with
  | nil =>
    rintro idx ⟨d, hd, _⟩
    exact absurd hd (List.not_mem_nil d)
  | cons d rest ih =>
    rintro idx ⟨q, hq, hqw⟩
    rcases List.mem_cons.mp hq with heq | hq2
    · have hde : buildDict idx d = Except.error CalError.indexError := by
        apply buildDict_error_eq
        rw [heq] at hqw
        exact hqw
      simp only [buildIndexFrom, hde]
    · cases hd : buildDict idx d with
      | error e =>
        have he := buildDict_error_value d idx e hd
        simp only [buildIndexFrom, hd, he]
      | ok idxn =>
        simp only [buildIndexFrom, hd]
        exact ih idxn ⟨q, hq2, hqw⟩

/-- C9: the holiday-index merge is total exactly when every date key of
every response maps to a non-empty entry list (the code indexes
holiday_data[0] unconditionally); when some date maps to an empty list the
merge fails with the IndexError, and any holiday-resolution failure aborts
generate() with that error instead of producing a table. -/
theorem holiday_index_totality (responses : List HolidayResponse) :
    ((∃ idx, buildIndex responses = Except.ok idx) ↔
      ∀ d ∈ responses, ∀ p ∈ d, p.2 ≠ ([] : List HolidayEntry)) ∧
    ((∃ d ∈ responses, ∃ p ∈ d, p.2 = ([] : List HolidayEntry)) →
      buildIndex responses = Except.error CalError.indexError) ∧
    (∀ (cal : Calendar) (api : HolidayOracle) (r : Bool) (err : CalError),
      cal.include_holidays = true → getHolidaysFromApi cal api = Except.error err →
      cal.generate api r = Except.error err) := by
  refine ⟨buildIndexFrom_ok_iff responses [], fun h => buildIndexFrom_error_eq responses [] h, ?_⟩
  intro cal api r err hinc hfetch
  exact generate_holidays_on_error cal api r err hinc hfetch

/-- Witness for C9: a response with an empty entry list makes the merge fail
with the IndexError. -/
theorem holiday_index_totality_witness :
    (∃ d ∈ [[("2021-01-01", ([] : List HolidayEntry))]], ∃ p ∈ d,
      p.2 = ([] : List HolidayEntry)) ∧
    buildIndex [[("2021-01-01", ([] : List HolidayEntry))]] =
      Except.error CalError.indexError :=
  ⟨by decide, (holiday_index_totality [[("2021-01-01", ([] : List HolidayEntry))]]).2.1
    (by decide)⟩

/-- C10: the row buffer persists across generate() calls. On a fresh
builder, a second generate() without reset returns a table that is two
copies of the first (the whole date sequence twice); generate(reset=true)
on the used builder instead returns exactly what generate() returned on the
fresh builder. -/
theorem buffer_persistence
    (s e : String) (inc : Bool) (key : Option String) (ctry : String)
    (api : HolidayOracle) (cal cal1 cal2 : Calendar) (t1 t2 : List CalendarRow)
    (hinit : Calendar.mkCalendar s e inc key ctry = Except.ok cal)
    (h1 : cal.generate api false = Except.ok (cal1, t1))
    (h2 : cal1.generate api false = Except.ok (cal2, t2)) :
    t2 = t1 ++ t1 ∧ cal1.generate api true = cal.generate api false := by
  obtain ⟨hbuf, _, _, _, _⟩ := mkCalendar_shape s e inc key ctry cal hinit
  cases hinc2 : cal.include_holidays with
  | false =>
    rw [generate_holidays_off cal api false hinc2] at h1
    have hp := (Except.ok.injEq _ _).mp h1
    have hc1 : cal1 = (cal.resetBuffer false).appendRows.1 := (congrArg Prod.fst hp).symm
    have ht1 : t1 = (if false then [] else cal.CALENDAR_DATA) ++
        (genDates cal).map (mkRow false cal.holidays) := (congrArg Prod.snd hp).symm
    have hinc1 : cal1.include_holidays = false := by
      rw [hc1]
      exact hinc2
    rw [generate_holidays_off cal1 api false hinc1] at h2
    have hp2 := (Except.ok.injEq _ _).mp h2
    have ht2 : t2 = (if false then [] else cal1.CALENDAR_DATA) ++
        (genDates cal1).map (mkRow false cal1.holidays) := (congrArg Prod.snd hp2).symm
    constructor
    · rw [ht2, ht1, hc1]
      simp [Calendar.appendRows, Calendar.resetBuffer, genDates, hbuf, hinc2]
    · rw [generate_holidays_off cal1 api true hinc1,
        generate_holidays_off cal api false hinc2, hc1]
      simp [Calendar.appendRows, Calendar.resetBuffer, genDates, hbuf, hinc2]
  | true =>
    cases hfetch : getHolidaysFromApi cal api with
    | error err =>
      rw [generate_holidays_on_error cal api false err hinc2 hfetch] at h1
      exact absurd h1 (by simp)
    | ok hs =>
      rw [generate_holidays_on_ok cal api false hs hinc2 hfetch] at h1
      have hp := (Except.ok.injEq _ _).mp h1
      have hc1 : cal1 = ({ cal.resetBuffer false with holidays := hs } : Calendar).appendRows.1 :=
        (congrArg Prod.fst hp).symm
      have ht1 : t1 = (if false then [] else cal.CALENDAR_DATA) ++
          (genDates cal).map (mkRow true hs) := (congrArg Prod.snd hp).symm
      have hinc1 : cal1.include_holidays = true := by
        rw [hc1]
        exact hinc2
      have hfetch1 : getHolidaysFromApi cal1 api = Except.ok hs := by
        rw [hc1]
        exact hfetch
      rw [generate_holidays_on_ok cal1 api false hs hinc1 hfetch1] at h2
      have hp2 := (Except.ok.injEq _ _).mp h2
      have ht2 : t2 = (if false then [] else cal1.CALENDAR_DATA) ++
          (genDates cal1).map (mkRow true hs) := (congrArg Prod.snd hp2).symm
      constructor
      · rw [ht2, ht1, hc1]
        simp [Calendar.appendRows, Calendar.resetBuffer, genDates, hbuf, hinc2]
      · rw [generate_holidays_on_ok cal1 api true hs hinc1 hfetch1,
          generate_holidays_on_ok cal api false hs hinc2 hfetch, hc1]
        simp [Calendar.appendRows, Calendar.resetBuffer, genDates, hbuf, hinc2]

/-- Witness for C10 at the 7-day demo builder. -/
theorem buffer_persistence_witness :
    demoRows ++ demoRows = demoPair.2 ++ demoPair.2 ∧
    demoPair.1.generate apiFail true = demoCal.generate apiFail false :=
  buffer_persistence "2021-01-01" "2021-01-08" false none "US" apiFail demoCal
    demoPair.1 { demoCal with CALENDAR_DATA := demoRows ++ demoRows }
    demoPair.2 (demoRows ++ demoRows) (by decide) (by decide) (by decide)

lemma string_data_append (a b : String) : (a ++ b).data = a.data ++ b.data := rfl

lemma string_mk_data (s : String) : String.mk s.data = s := by
  obtain ⟨d⟩ := s
  rfl

lemma splitChars_no_sep (sep : Char) (cs : List Char) (h : sep ∉ cs) :
    splitChars sep cs = [cs] := by
  induction cs with
  | nil => rfl
  | cons c rest ih =>
    have hc : c ≠ sep := fun hc => h (by rw [hc]; exact List.mem_cons_self _ _)
    have hrest : sep ∉ rest := fun hm => h (List.mem_cons_of_mem _ hm)
    simp only [splitChars, ih hrest, if_neg hc]

lemma splitChars_append_sep (sep : Char) (cs rest : List Char) (h : sep ∉ cs) :
    splitChars sep (cs ++ sep :: rest) = cs :: splitChars sep rest := by
  induction cs with
  | nil => simp [splitChars]
  | cons c cs2 ih =>
    have hc : c ≠ sep := fun hc => h (by rw [hc]; exact List.mem_cons_self _ _)
    have hcs2 : sep ∉ cs2 := fun hm => h (List.mem_cons_of_mem _ hm)
    simp only [List.cons_append, splitChars, if_neg hc, List.append_eq]
    rw [ih hcs2]

lemma splitCells_joinCells (sep : Char) (cells : List String) (hne : cells ≠ [])
    (h : ∀ c ∈ cells, sep ∉ c.data) :
    splitCells sep (joinCells sep cells) = cells := by
  induction cells with
  | nil => exact absurd rfl hne
  | cons c cs ih =>
    cases cs with
    | nil =>
      have hc : sep ∉ c.data := h c (List.mem_cons_self _ _)
      simp only [joinCells, splitCells, splitChars_no_sep sep c.data hc, List.map,
        string_mk_data]
    | cons c2 cs2 =>
      have hc : sep ∉ c.data := h c (List.mem_cons_self _ _)
      have hrest : ∀ x ∈ c2 :: cs2, sep ∉ x.data :=
        fun x hx => h x (List.mem_cons_of_mem _ hx)
      have hdata : (joinCells sep (c :: c2 :: cs2)).data =
          c.data ++ sep :: (joinCells sep (c2 :: cs2)).data := by
        show (c ++ String.mk [sep] ++ joinCells sep (c2 :: cs2)).data = _
        rw [string_data_append, string_data_append]
        simp
      rw [splitCells, hdata, splitChars_append_sep sep c.data _ hc]
      simp only [List.map]
      rw [string_mk_data]
      have := ih (by simp) hrest
      rw [splitCells] at this
      rw [this]

lemma quoteCell_id (sep : Char) (s : String)
    (h : ∀ ch ∈ s.data, ¬(ch = sep ∨ ch = '"' ∨ ch = '\n' ∨ ch = '\r')) :
    quoteCell sep s = s := by
  have h2 : ¬ (s.data.any
      (fun ch => decide (ch = sep ∨ ch = '"' ∨ ch = '\n' ∨ ch = '\r')) = true) := by
    simp only [List.any_eq_true, decide_eq_true_eq]
    rintro ⟨ch, hch, hp⟩
    exact h ch hch hp
  rw [quoteCell, if_neg h2]

lemma rowCells_ne_nil (r : CalendarRow) : rowCells r ≠ [] := by
  simp [rowCells]

lemma map_quote_id (sep : Char) (cells : List String)
    (h : ∀ c ∈ cells, ∀ ch ∈ c.data, ¬(ch = sep ∨ ch = '"' ∨ ch = '\n' ∨ ch = '\r')) :
    cells.map (quoteCell sep) = cells := by
  induction cells with
  | nil => rfl
  | cons c cs ih =>
    simp only [List.map]
    rw [quoteCell_id sep c (h c (List.mem_cons_self _ _)),
      ih (fun x hx => h x (List.mem_cons_of_mem _ hx))]

lemma quoted_line_id (sep : Char) (cells : List String) (hne : cells ≠ [])
    (h : ∀ c ∈ cells, ∀ ch ∈ c.data, ¬(ch = sep ∨ ch = '"' ∨ ch = '\n' ∨ ch = '\r')) :
    splitCells sep (joinCells sep (cells.map (quoteCell sep))) = cells := by
  rw [map_quote_id sep cells h]
  exact splitCells_joinCells sep cells hne
    (fun c hc hm => h c hc sep hm (Or.inl rfl))

/-- C7 as stated is false: for the table of a default one-day generate(),
exporting with separator '-' and re-parsing by splitting on the separator
does not reconstruct the field values, because the date field itself
contains the separator (to_csv quotes it and the naive split cuts it
apart). -/
theorem csv_roundtrip_counterexample :
    (initGenerate "2021-01-01" "2021-01-02" false none "US" apiFail false).map
      (fun p => p.2) = Except.ok cexRows ∧
    parseLines '-' (exportLines cexRows '-') ≠ CALENDAR_KEYS :: cexRows.map rowCells := by
  exact ⟨by decide, by decide⟩

/-- C7 amended: exporting a table to delimited text and re-parsing it by
splitting the header and each row line on the separator reconstructs the
field values and row order, provided no serialized field (header keys
included) contains the separator, the quote character, or a line
terminator — the condition under which to_csv performs no quoting. -/
theorem csv_roundtrip_amended (t : List CalendarRow) (sep : Char)
    (hkeys : ∀ c ∈ CALENDAR_KEYS, ∀ ch ∈ c.data,
      ¬(ch = sep ∨ ch = '"' ∨ ch = '\n' ∨ ch = '\r'))
    (hcells : ∀ r ∈ t, ∀ c ∈ rowCells r, ∀ ch ∈ c.data,
      ¬(ch = sep ∨ ch = '"' ∨ ch = '\n' ∨ ch = '\r')) :
    parseLines sep (exportLines t sep) = CALENDAR_KEYS :: t.map rowCells := by
  rw [exportLines, parseLines]
  simp only [List.map_cons, List.map_map]
  congr 1
  · exact quoted_line_id sep CALENDAR_KEYS (by simp [CALENDAR_KEYS]) hkeys
  · rw [List.map_congr_left]
    intro r hr
    exact quoted_line_id sep (rowCells r) (rowCells_ne_nil r) (hcells r hr)

/-- Witness for the amended C7 at the default one-day table with the comma
separator. -/
theorem csv_roundtrip_amended_witness :
    (∀ r ∈ cexRows, ∀ c ∈ rowCells r, ∀ ch ∈ c.data,
      ¬(ch = ',' ∨ ch = '"' ∨ ch = '\n' ∨ ch = '\r')) ∧
    parseLines ',' (exportLines cexRows ',') = CALENDAR_KEYS :: cexRows.map rowCells :=
  ⟨by decide, csv_roundtrip_amended cexRows ',' (by decide) (by decide)⟩
